import Mathlib

/-!
Shallow embedding of the tinypipe single-producer/single-consumer byte queue
(src/tinypipe.c, src/tinypipe.h) and verification of its specification claims.

The C arena (a malloc'd char buffer) is modelled as a total byte function
`Int → Nat`; pointers into the arena become integer offsets from the buffer
start.  32-bit integer stores and loads at byte offsets are modelled
little-endian with explicit two's-complement wraparound at 2^32, matching the
unaligned `*((int32_t *) p)` accesses of the C code.  Memory fences are
no-ops in this sequential model.  C `assert` preconditions are modelled as
separate decidable `_ok` propositions next to the (total) state transformers.
-/

set_option maxRecDepth 100000
set_option maxHeartbeats 4000000

/-- Sentinel: no more data past this point (HLP_STOP in tinypipe.c). -/
def HLP_STOP : Int := 0

/-- Sentinel: continue reading from the arena start (HLP_LOOP in tinypipe.c). -/
def HLP_LOOP : Int := -1

/-- Store one byte at offset i of the arena. -/
def setByte (a : Int → Nat) (i : Int) (v : Nat) : Int → Nat :=
  fun j => if j = i then v else a j

/-- TPIPE_SET_INT32_AT_BUFFER: store a 32-bit signed integer at byte offset
`off`, little-endian, two's complement. -/
def setInt32 (a : Int → Nat) (off v : Int) : Int → Nat :=
  let w : Nat := (v % 4294967296).toNat
  setByte (setByte (setByte (setByte a off (w % 256))
    (off + 1) (w / 256 % 256))
    (off + 2) (w / 65536 % 256))
    (off + 3) (w / 16777216 % 256)

/-- TPIPE_GET_INT32_AT_BUFFER: load a 32-bit signed integer stored at byte
offset `off`, little-endian, two's complement. -/
def getInt32 (a : Int → Nat) (off : Int) : Int :=
  let w : Nat := a off % 256 + 256 * (a (off + 1) % 256) +
    65536 * (a (off + 2) % 256) + 16777216 * (a (off + 3) % 256)
  if w < 2147483648 then (w : Int) else (w : Int) - 4294967296

/-- C memcpy of a byte list into the arena at offset `dst`. -/
def memcpy (a : Int → Nat) (dst : Int) (data : List Nat) : Int → Nat :=
  fun j => if dst ≤ j ∧ j < dst + (data.length : Int)
    then data.getD (j - dst).toNat 0 else a j

/-- The TinyPipe struct of tinypipe.h: the buffer is the arena contents, and
the char-pointer fields writeHead/readHead become integer offsets from the
buffer start. -/
structure TinyPipe where
  buffer : Int → Nat
  writeHead : Int
  readHead : Int
  len : Int
  remainingBytes : Int

/-- Precondition asserted by tpipe_init: numBytes > 0. -/
abbrev init_ok (numBytes : Int) : Prop := 0 < numBytes

/-- tpipe_init: both heads at the buffer start, remainingBytes = len =
numBytes, STOP written at offset 0.  `a0` is the (arbitrary, uninitialised)
content of the malloc'd buffer. -/
def tpipe_init (a0 : Int → Nat) (numBytes : Int) : TinyPipe :=
  { buffer := setInt32 a0 0 HLP_STOP
    writeHead := 0
    readHead := 0
    len := numBytes
    remainingBytes := numBytes }

/-- tpipe_hasData: peek the int32 at the read head; if it is LOOP, move the
read head to the buffer start and peek again.  Returns the updated pipe and
the peeked value. -/
def tpipe_hasData (q : TinyPipe) : TinyPipe × Int :=
  let x := getInt32 q.buffer q.readHead
  if x = HLP_LOOP then
    ({ q with readHead := 0 }, getInt32 q.buffer 0)
  else (q, x)

/-- tpipe_getWriteBuffer: returns the (possibly wrapped) pipe and the offset
where bytesToWrite payload bytes may be written, or none when there is no
space. -/
def tpipe_getWriteBuffer (q : TinyPipe) (bytesToWrite : Int) :
    TinyPipe × Option Int :=
  let readHead := q.readHead
  let oldWriteHead := q.writeHead
  let totalByteRequirement := bytesToWrite + 2 * 4
  if totalByteRequirement ≤ q.remainingBytes then
    let newWriteHead := oldWriteHead + 4 + bytesToWrite
    if oldWriteHead < readHead ∧ readHead ≤ newWriteHead then (q, none)
    else (q, some (oldWriteHead + 4))
  else
    if totalByteRequirement ≤ q.len then
      if oldWriteHead < readHead ∨ readHead < totalByteRequirement then
        (q, none)
      else
        ({ q with
            writeHead := 0
            remainingBytes := q.len
            buffer := setInt32 (setInt32 q.buffer 0 HLP_STOP)
                        oldWriteHead HLP_LOOP },
          some 4)
    else (q, none)

/-- Precondition asserted by tpipe_produce:
remainingBytes >= numBytes + 2*sizeof(int32_t). -/
abbrev produce_ok (q : TinyPipe) (numBytes : Int) : Prop :=
  numBytes + 2 * 4 ≤ q.remainingBytes

/-- tpipe_produce: decrement remainingBytes, advance the write head past the
header and payload, write STOP at the new write head, then (after the fence)
write the length header at the old write head. -/
def tpipe_produce (q : TinyPipe) (numBytes : Int) : TinyPipe :=
  let q1 := { q with remainingBytes := q.remainingBytes - (4 + numBytes) }
  let oldWriteHead := q1.writeHead
  let q2 := { q1 with writeHead := q1.writeHead + (4 + numBytes) }
  { q2 with buffer := setInt32 (setInt32 q2.buffer q2.writeHead HLP_STOP)
                        oldWriteHead numBytes }

/-- tpipe_getReadBuffer: returns the offset just past the current frame
header together with the int32 stored at the read head (the out-parameter
numBytes). -/
def tpipe_getReadBuffer (q : TinyPipe) : Int × Int :=
  (q.readHead + 4, getInt32 q.buffer q.readHead)

/-- Precondition asserted by tpipe_consume: the value at the read head is
not STOP. -/
abbrev consume_ok (q : TinyPipe) : Prop :=
  getInt32 q.buffer q.readHead ≠ HLP_STOP

/-- tpipe_consume: advance the read head past the current frame using the
length stored at the read head. -/
def tpipe_consume (q : TinyPipe) : TinyPipe :=
  { q with readHead := q.readHead + 4 + getInt32 q.buffer q.readHead }

/-- tpipe_clear: both heads to the buffer start, remainingBytes to len,
memset the whole arena to zero. -/
def tpipe_clear (q : TinyPipe) : TinyPipe :=
  { q with
      writeHead := 0
      readHead := 0
      remainingBytes := q.len
      buffer := fun j => if 0 ≤ j ∧ j < q.len then 0 else q.buffer j }

/-- Loop body of tpipe_getTotalData, with explicit fuel for the C while loop
(which the source does not bound); none means the fuel ran out. -/
def tpipe_getTotalDataAux (q : TinyPipe) : Nat → Int → Int → Option Int
  | 0, _, _ => none
  | fuel + 1, p, len =>
    let d := getInt32 q.buffer p
    if d = HLP_STOP then some len
    else if d = HLP_LOOP then tpipe_getTotalDataAux q fuel 0 len
    else tpipe_getTotalDataAux q fuel (p + (4 + d)) (len + d)

/-- tpipe_getTotalData: walk frames from the read head, following LOOP
markers to the buffer start, summing payload lengths until STOP. -/
def tpipe_getTotalData (q : TinyPipe) (fuel : Nat) : Option Int :=
  tpipe_getTotalDataAux q fuel q.readHead 0

/-- tpipe_write: getWriteBuffer, memcpy the payload, produce.  Returns the
resulting pipe and the C int result (1 success, 0 failure).  The payload is
a byte list; numBytes is its length. -/
def tpipe_write (q : TinyPipe) (data : List Nat) : TinyPipe × Int :=
  match tpipe_getWriteBuffer q (data.length : Int) with
  | (q1, none) => (q1, 0)
  | (q1, some ptr) =>
      let q2 := { q1 with buffer := memcpy q1.buffer ptr data }
      (tpipe_produce q2 (data.length : Int), 1)

/-- The assert inside the tpipe_produce call of tpipe_write holds for this
call (so the C run does not abort). -/
abbrev write_ok (q : TinyPipe) (data : List Nat) : Prop :=
  produce_ok (tpipe_getWriteBuffer q (data.length : Int)).1
    (data.length : Int)

/-! ## Concrete states used by counterexamples and witnesses

All of the following states are reached from a freshly initialised pipe by
public API calls whose success (and assert preconditions) are proved in the
claim theorems below. -/

/-- A freshly initialised 32-byte pipe over a zeroed malloc result. -/
def q32 : TinyPipe := tpipe_init (fun _ => 0) 32

/-- Payload of the first write of the overwrite trace (8 bytes). -/
def payA : List Nat := [1, 2, 3, 4, 5, 6, 7, 8]

/-- Payload of the second write of the overwrite trace (20 bytes). -/
def payB : List Nat := List.replicate 20 9

/-- Payload of the third (wrapping) write of the overwrite trace (2 bytes). -/
def payC : List Nat := [41, 42]

/-- Payload of the fourth write of the overwrite trace (1 byte); its trailing
STOP sentinel lands on bytes 11..14 and destroys the unread header at 12. -/
def payD : List Nat := [51]

/-- Overwrite trace: freshly initialised 40-byte pipe. -/
def cq0 : TinyPipe := tpipe_init (fun _ => 0) 40

/-- Overwrite trace after writing the 8-byte frame payA. -/
def cq1 : TinyPipe := (tpipe_write cq0 payA).1

/-- Overwrite trace after writing the 20-byte frame payB. -/
def cq2 : TinyPipe := (tpipe_write cq1 payB).1

/-- Overwrite trace after consuming the first frame (read head at 12, the
unread payB frame header). -/
def cq3 : TinyPipe := tpipe_consume cq2

/-- Overwrite trace after the wrapping 2-byte write payC (write head 6,
read head 12). -/
def cq4 : TinyPipe := (tpipe_write cq3 payC).1

/-- Overwrite trace after the 1-byte write payD whose STOP sentinel at
offset 11 zeroes bytes 12..14 of the unread payB header. -/
def cq5 : TinyPipe := (tpipe_write cq4 payD).1

/-- Scenario B/C payload: 20 bytes. -/
def pay20 : List Nat := List.replicate 20 5

/-- Scenario B/C trace: freshly initialised 32-byte pipe. -/
def sq0 : TinyPipe := tpipe_init (fun _ => 0) 32

/-- Scenario B/C trace after the first (successful) 20-byte write. -/
def sq1 : TinyPipe := (tpipe_write sq0 pay20).1

/-- Scenario B/C trace after the failed second 20-byte write (unchanged). -/
def sq2 : TinyPipe := (tpipe_write sq1 pay20).1

/-- Scenario C trace after consuming the first frame (read head at 24). -/
def sq3 : TinyPipe := tpipe_consume sq2

/-- First payload of the negative-hasData trace (40 bytes). -/
def payE : List Nat := List.replicate 40 1

/-- Second payload of the negative-hasData trace (300 bytes); bytes 256..259
are 0,0,0,128, the little-endian encoding of -2^31, planted where the
corrupted reader will later land. -/
def payF : List Nat :=
  List.replicate 256 7 ++ [0, 0, 0, 128] ++ List.replicate 40 7

/-- Third (wrapping) payload of the negative-hasData trace (8 bytes). -/
def payG : List Nat := List.replicate 8 2

/-- Fourth payload of the negative-hasData trace (25 bytes); its STOP
sentinel at offset 41 zeroes byte 44, turning the unread 300-byte frame
header into 256. -/
def payH : List Nat := List.replicate 25 3

/-- Negative-hasData trace: freshly initialised 360-byte pipe. -/
def lq0 : TinyPipe := tpipe_init (fun _ => 0) 360

/-- Negative-hasData trace after writing the 40-byte frame payE. -/
def lq1 : TinyPipe := (tpipe_write lq0 payE).1

/-- Negative-hasData trace after writing the 300-byte frame payF. -/
def lq2 : TinyPipe := (tpipe_write lq1 payF).1

/-- Negative-hasData trace after consuming payE (read head at 44). -/
def lq3 : TinyPipe := tpipe_consume lq2

/-- Negative-hasData trace after the wrapping 8-byte write payG. -/
def lq4 : TinyPipe := (tpipe_write lq3 payG).1

/-- Negative-hasData trace after the 25-byte write payH that corrupts the
unread payF header from 300 to 256. -/
def lq5 : TinyPipe := (tpipe_write lq4 payH).1

/-- Negative-hasData trace after consuming the corrupted 256-byte frame:
the read head lands misaligned at offset 304, inside payF's payload. -/
def lq6 : TinyPipe := tpipe_consume lq5

/-! ## Helper lemmas about the int32 store/load model -/

/-- A 32-bit store leaves bytes outside [off, off+4) unchanged. -/
theorem setInt32_get_outside (a : Int → Nat) (off v j : Int)
    (h : j < off ∨ off + 4 ≤ j) : setInt32 a off v j = a j := by
  have h0 : j ≠ off := by omega
  have h1 : j ≠ off + 1 := by omega
  have h2 : j ≠ off + 2 := by omega
  have h3 : j ≠ off + 3 := by omega
  simp [setInt32, setByte, h0, h1, h2, h3]

/-- Loading at an offset whose four bytes are disjoint from a 32-bit store
sees the old value. -/
theorem getInt32_setInt32_ne (a : Int → Nat) (off off' v : Int)
    (h : off' + 4 ≤ off ∨ off + 4 ≤ off') :
    getInt32 (setInt32 a off v) off' = getInt32 a off' := by
  simp only [getInt32]
  rw [setInt32_get_outside a off v off' (by omega),
    setInt32_get_outside a off v (off' + 1) (by omega),
    setInt32_get_outside a off v (off' + 2) (by omega),
    setInt32_get_outside a off v (off' + 3) (by omega)]

/-- Loading exactly where a 32-bit value in int32 range was stored returns
that value. -/
theorem getInt32_setInt32_same (a : Int → Nat) (off v : Int)
    (h1 : -2147483648 ≤ v) (h2 : v < 2147483648) :
    getInt32 (setInt32 a off v) off = v := by
  have b0 : setInt32 a off v off = (v % 4294967296).toNat % 256 := by
    simp only [setInt32, setByte]
    rw [if_neg (by omega : ¬ (off = off + 3)),
      if_neg (by omega : ¬ (off = off + 2)),
      if_neg (by omega : ¬ (off = off + 1)), if_pos trivial]
  have b1 : setInt32 a off v (off + 1) =
      (v % 4294967296).toNat / 256 % 256 := by
    simp only [setInt32, setByte]
    rw [if_neg (by omega : ¬ (off + 1 = off + 3)),
      if_neg (by omega : ¬ (off + 1 = off + 2)), if_pos trivial]
  have b2 : setInt32 a off v (off + 2) =
      (v % 4294967296).toNat / 65536 % 256 := by
    simp only [setInt32, setByte]
    rw [if_neg (by omega : ¬ (off + 2 = off + 3)), if_pos trivial]
  have b3 : setInt32 a off v (off + 3) =
      (v % 4294967296).toNat / 16777216 % 256 := by
    simp only [setInt32, setByte]
    rw [if_pos trivial]
  simp only [getInt32, b0, b1, b2, b3]
  split_ifs with hlt
  · omega
  · omega

/-! ## Claim theorems -/

/-- C6: for every queue state, tpipe_hasData returns the int32 value stored
at the resolved read cursor (the frame length if positive, STOP = 0 if
none); the read cursor is moved to the arena start exactly when the value
first read was LOOP and is otherwise unchanged, and no other field of the
queue changes. -/
theorem c6_hasdata_semantics (q : TinyPipe) :
    (tpipe_hasData q).1.readHead =
      (if getInt32 q.buffer q.readHead = HLP_LOOP then 0 else q.readHead) ∧
    (tpipe_hasData q).2 = getInt32 q.buffer
      (if getInt32 q.buffer q.readHead = HLP_LOOP then 0 else q.readHead) ∧
    (tpipe_hasData q).2 =
      getInt32 (tpipe_hasData q).1.buffer (tpipe_hasData q).1.readHead ∧
    (tpipe_hasData q).1.buffer = q.buffer ∧
    (tpipe_hasData q).1.writeHead = q.writeHead ∧
    (tpipe_hasData q).1.len = q.len ∧
    (tpipe_hasData q).1.remainingBytes = q.remainingBytes := by
  unfold tpipe_hasData
  split_ifs with hx <;> simp [hx]

/-- C7: for every queue state, the tpipe_consume assertion fails exactly
when the value at the read cursor is the STOP sentinel; otherwise the read
cursor advances by exactly 4 plus the length stored at the read cursor,
and every other field and the arena contents are unchanged. -/
theorem c7_commitread_semantics (q : TinyPipe) :
    (consume_ok q ↔ getInt32 q.buffer q.readHead ≠ HLP_STOP) ∧
    (tpipe_consume q).readHead =
      q.readHead + 4 + getInt32 q.buffer q.readHead ∧
    (tpipe_consume q).buffer = q.buffer ∧
    (tpipe_consume q).writeHead = q.writeHead ∧
    (tpipe_consume q).len = q.len ∧
    (tpipe_consume q).remainingBytes = q.remainingBytes :=
  ⟨Iff.rfl, rfl, rfl, rfl, rfl, rfl⟩

/-- C7 witness: concrete instance at the Scenario B state sq2, where a
20-byte frame is queued: the assertion precondition holds and the read
cursor advances by 4 + 20. -/
theorem c7_commitread_semantics_witness :
    consume_ok sq2 ∧ (tpipe_consume sq2).readHead = 24 :=
  ⟨(c7_commitread_semantics sq2).1.mpr (by decide),
    by rw [(c7_commitread_semantics sq2).2.1]; decide⟩

/-- C9: whenever tpipe_getWriteBuffer returns none (any of its three
failure branches), the returned queue state is exactly the input state:
cursors, remaining-bytes counter and every arena byte are unchanged. -/
theorem c9_acquire_failure_atomic (q : TinyPipe) (b : Int)
    (h : (tpipe_getWriteBuffer q b).2 = none) :
    (tpipe_getWriteBuffer q b).1 = q := by
  simp only [tpipe_getWriteBuffer] at h ⊢
  split_ifs at h ⊢ <;> simp_all

/-- C9 witness: a 100-byte request on a fresh 32-byte pipe fails and leaves
the state unchanged. -/
theorem c9_acquire_failure_atomic_witness :
    (tpipe_getWriteBuffer q32 100).1 = q32 :=
  c9_acquire_failure_atomic q32 100 (by decide)

/-- C8: after tpipe_clear both cursors equal the arena start, the
remaining-bytes counter equals the full capacity, every arena byte is zero,
and (whenever the arena can hold at least one int32 slot) an immediately
following hasData returns 0 and getTotalData returns 0. -/
theorem c8_clear_postcondition (q : TinyPipe) :
    (tpipe_clear q).writeHead = 0 ∧
    (tpipe_clear q).readHead = 0 ∧
    (tpipe_clear q).remainingBytes = q.len ∧
    (tpipe_clear q).len = q.len ∧
    (∀ j : Int, 0 ≤ j → j < q.len → (tpipe_clear q).buffer j = 0) ∧
    (4 ≤ q.len → (tpipe_hasData (tpipe_clear q)).2 = 0 ∧
      ∀ fuel : Nat, tpipe_getTotalData (tpipe_clear q) (fuel + 1) = some 0) := by
  have hb : ∀ k : Int, 0 ≤ k → k < q.len → (tpipe_clear q).buffer k = 0 := by
    intro k h0 h1
    simp [tpipe_clear, h0, h1]
  refine ⟨rfl, rfl, rfl, rfl, hb, ?_⟩
  intro hlen
  have hz : getInt32 (tpipe_clear q).buffer 0 = 0 := by
    simp only [getInt32]
    rw [hb 0 (by omega) (by omega), hb (0 + 1) (by omega) (by omega),
      hb (0 + 2) (by omega) (by omega), hb (0 + 3) (by omega) (by omega)]
    decide
  have hr : (tpipe_clear q).readHead = 0 := rfl
  constructor
  · simp [tpipe_hasData, hr, hz, HLP_LOOP]
  · intro fuel
    simp [tpipe_getTotalData, tpipe_getTotalDataAux, hr, hz, HLP_STOP]

/-- C8 witness: concrete instance on a cleared fresh 32-byte pipe. -/
theorem c8_clear_postcondition_witness :
    (tpipe_clear q32).readHead = 0 ∧ (tpipe_clear q32).buffer 3 = 0 ∧
    (tpipe_hasData (tpipe_clear q32)).2 = 0 ∧
    tpipe_getTotalData (tpipe_clear q32) 1 = some 0 := by
  refine ⟨(c8_clear_postcondition q32).2.1, ?_, ?_, ?_⟩
  · exact (c8_clear_postcondition q32).2.2.2.2.1 3 (by decide) (by decide)
  · exact ((c8_clear_postcondition q32).2.2.2.2.2 (by decide)).1
  · exact ((c8_clear_postcondition q32).2.2.2.2.2 (by decide)).2 0

/-- Helper: a successful tpipe_getWriteBuffer call guarantees that the
reserved total (payload + header + trailing sentinel slot) fits in the
remaining bytes of the returned state. -/
theorem getWriteBuffer_some_rem (q : TinyPipe) (b p : Int)
    (h : (tpipe_getWriteBuffer q b).2 = some p) :
    b + 2 * 4 ≤ (tpipe_getWriteBuffer q b).1.remainingBytes := by
  simp only [tpipe_getWriteBuffer] at h ⊢
  split_ifs at h ⊢ <;> assumption

/-- C4 counterexample: on a fresh 32-byte pipe, acquireWriteRegion(4)
returns non-null (offset 4), yet publishWrite(8) with 8 greater than the
4 reserved bytes passes the tpipe_produce assertion, contrary to the
claim that it must fail. -/
theorem c4_publish_assert_counterexample :
    (tpipe_getWriteBuffer q32 4).2 = some 4 ∧
    (4 : Int) < 8 ∧
    produce_ok (tpipe_getWriteBuffer q32 4).1 8 := by decide

/-- C4 amended: after a successful acquireWriteRegion(b) the assertion of
publishWrite(n) fails exactly when n + 8 exceeds the remaining-bytes
counter; since the successful acquire guarantees b + 8 remaining bytes,
every n at most b passes, but larger n may pass as well. -/
theorem c4_publish_assert_amended (q : TinyPipe) (b p : Int)
    (h : (tpipe_getWriteBuffer q b).2 = some p) :
    b + 2 * 4 ≤ (tpipe_getWriteBuffer q b).1.remainingBytes ∧
    (∀ n : Int, n ≤ b → produce_ok (tpipe_getWriteBuffer q b).1 n) ∧
    (∀ n : Int, ¬ produce_ok (tpipe_getWriteBuffer q b).1 n ↔
      (tpipe_getWriteBuffer q b).1.remainingBytes < n + 2 * 4) := by
  have hrem := getWriteBuffer_some_rem q b p h
  refine ⟨hrem, fun n hn => ?_, fun n => ?_⟩
  · simp only [produce_ok]
    omega
  · simp only [produce_ok]
    omega

/-- C4 amended witness: concrete instance at the fresh 32-byte pipe with
b = 4: 12 bytes are reserved and publishing 3 bytes passes the assert. -/
theorem c4_publish_assert_amended_witness :
    (4 : Int) + 2 * 4 ≤ (tpipe_getWriteBuffer q32 4).1.remainingBytes ∧
    produce_ok (tpipe_getWriteBuffer q32 4).1 3 :=
  ⟨(c4_publish_assert_amended q32 4 4 (by decide)).1,
    (c4_publish_assert_amended q32 4 4 (by decide)).2.1 3 (by decide)⟩

/-- C5: after a successful acquireWriteRegion(b), publishWrite(b) passes
its assertion, advances the write cursor by exactly 4 + b, decrements the
remaining-bytes counter by exactly 4 + b, stores STOP in the 4-byte slot
immediately after the new frame's payload end, and stores the length b in
the 4-byte slot at the old write-cursor position. -/
theorem c5_publish_postcondition (q : TinyPipe) (b p : Int)
    (hb0 : 0 ≤ b) (hb1 : b < 2147483648)
    (h : (tpipe_getWriteBuffer q b).2 = some p) :
    produce_ok (tpipe_getWriteBuffer q b).1 b ∧
    (tpipe_produce (tpipe_getWriteBuffer q b).1 b).writeHead =
      (tpipe_getWriteBuffer q b).1.writeHead + (4 + b) ∧
    (tpipe_produce (tpipe_getWriteBuffer q b).1 b).remainingBytes =
      (tpipe_getWriteBuffer q b).1.remainingBytes - (4 + b) ∧
    getInt32 (tpipe_produce (tpipe_getWriteBuffer q b).1 b).buffer
      ((tpipe_getWriteBuffer q b).1.writeHead + (4 + b)) = HLP_STOP ∧
    getInt32 (tpipe_produce (tpipe_getWriteBuffer q b).1 b).buffer
      (tpipe_getWriteBuffer q b).1.writeHead = b := by
  have hrem := getWriteBuffer_some_rem q b p h
  refine ⟨hrem, rfl, rfl, ?_, ?_⟩
  · show getInt32 (setInt32 (setInt32 (tpipe_getWriteBuffer q b).1.buffer
        ((tpipe_getWriteBuffer q b).1.writeHead + (4 + b)) HLP_STOP)
        (tpipe_getWriteBuffer q b).1.writeHead b)
        ((tpipe_getWriteBuffer q b).1.writeHead + (4 + b)) = HLP_STOP
    rw [getInt32_setInt32_ne
        (setInt32 (tpipe_getWriteBuffer q b).1.buffer
          ((tpipe_getWriteBuffer q b).1.writeHead + (4 + b)) HLP_STOP)
        (tpipe_getWriteBuffer q b).1.writeHead
        ((tpipe_getWriteBuffer q b).1.writeHead + (4 + b)) b
        (Or.inr (by omega))]
    exact getInt32_setInt32_same _ _ HLP_STOP (by decide) (by decide)
  · exact getInt32_setInt32_same _ (tpipe_getWriteBuffer q b).1.writeHead b
      (by omega) hb1

/-- C5 witness: concrete instance on the fresh 32-byte pipe with b = 4. -/
theorem c5_publish_postcondition_witness :
    produce_ok (tpipe_getWriteBuffer q32 4).1 4 ∧
    (tpipe_produce (tpipe_getWriteBuffer q32 4).1 4).writeHead =
      (tpipe_getWriteBuffer q32 4).1.writeHead + (4 + 4) ∧
    (tpipe_produce (tpipe_getWriteBuffer q32 4).1 4).remainingBytes =
      (tpipe_getWriteBuffer q32 4).1.remainingBytes - (4 + 4) ∧
    getInt32 (tpipe_produce (tpipe_getWriteBuffer q32 4).1 4).buffer
      ((tpipe_getWriteBuffer q32 4).1.writeHead + (4 + 4)) = HLP_STOP ∧
    getInt32 (tpipe_produce (tpipe_getWriteBuffer q32 4).1 4).buffer
      (tpipe_getWriteBuffer q32 4).1.writeHead = 4 :=
  c5_publish_postcondition q32 4 4 (by decide) (by decide) (by decide)

/-- C1: FIFO round-trip is violated by the code.  On a fresh 40-byte pipe
the writes of payA (8 bytes), payB (20 bytes), payC (2 bytes, wrapping) and
payD (1 byte) all succeed via tpipe_write (each inner assert holding), with
one commitRead of payA interleaved; yet afterwards hasData returns 0 and
getTotalData returns 0, so the read-back cycle ends after W1 instead of
yielding W2, W3, W4: payD's trailing STOP sentinel overwrote the unread
payB header. -/
theorem c1_fifo_roundtrip_violated :
    init_ok 40 ∧
    (tpipe_write cq0 payA).2 = 1 ∧ write_ok cq0 payA ∧
    (tpipe_write cq1 payB).2 = 1 ∧ write_ok cq1 payB ∧
    consume_ok cq2 ∧
    (tpipe_write cq3 payC).2 = 1 ∧ write_ok cq3 payC ∧
    (tpipe_write cq4 payD).2 = 1 ∧ write_ok cq4 payD ∧
    (tpipe_hasData cq5).2 = 0 ∧
    tpipe_getTotalData cq5 8 = some 0 := by decide

/-- C2: the no-overwrite guarantee is violated by the code.  In state cq4
(reached by successful API calls) the unread payB frame header with length
20 sits at the read cursor 12 while the write cursor is at 6; a 1-byte
acquireWriteRegion returns non-null (offset 10) although the trailing STOP
slot of that write covers bytes 11..14, and the subsequent successful
tpipe_write zeroes byte 12..14: the unconsumed frame header 20 becomes 0. -/
theorem c2_no_overwrite_violated :
    cq4.readHead = 12 ∧ cq4.writeHead = 6 ∧
    getInt32 cq4.buffer 12 = 20 ∧
    (tpipe_getWriteBuffer cq4 1).2 = some 10 ∧
    (tpipe_write cq4 payD).2 = 1 ∧ write_ok cq4 payD ∧
    getInt32 cq5.buffer 12 = 0 := by decide

/-- C3 counterexample: after init(32), a successful 20-byte write, a failed
second 20-byte write, and one commitRead, the retried 20-byte write FAILS
(returns 0), contrary to the claim that it succeeds via the wrap path. -/
theorem c3_scenario_c_counterexample :
    (tpipe_write sq0 pay20).2 = 1 ∧ write_ok sq0 pay20 ∧
    (tpipe_write sq1 pay20).2 = 0 ∧
    consume_ok sq2 ∧
    (tpipe_write sq3 pay20).2 = 0 := by decide

/-- C3 amended: in the Scenario C state (read cursor 24, remaining tail 8),
the retried 20-byte write fails -- the wrap region of 20 + 8 = 28 bytes
would extend past the read cursor at 24 -- the failed attempt leaves the
state unchanged, and totalQueuedBytes returns 0, not 20. -/
theorem c3_scenario_c_amended :
    sq3.readHead = 24 ∧ sq3.remainingBytes = 8 ∧
    (tpipe_getWriteBuffer sq3 20).2 = none ∧
    (tpipe_write sq3 pay20).2 = 0 ∧
    (tpipe_write sq3 pay20).1 = sq3 ∧
    tpipe_getTotalData sq3 8 = some 0 :=
  ⟨by decide, by decide, by decide, by decide, rfl, by decide⟩

/-- C10: the claim's consequence fails on the code: hasData CAN return a
negative value at a state reachable through successful API calls.  In the
360-byte trace, payH's STOP sentinel corrupts the unread 300-byte frame
header to 256; consuming that frame puts the read cursor misaligned at 304
inside payF's payload, where the planted bytes 0,0,0,128 make hasData
return -2147483648. -/
theorem c10_hasdata_negative :
    (tpipe_write lq0 payE).2 = 1 ∧ write_ok lq0 payE ∧
    (tpipe_write lq1 payF).2 = 1 ∧ write_ok lq1 payF ∧
    consume_ok lq2 ∧
    (tpipe_write lq3 payG).2 = 1 ∧ write_ok lq3 payG ∧
    (tpipe_write lq4 payH).2 = 1 ∧ write_ok lq4 payH ∧
    (tpipe_hasData lq5).2 = 256 ∧
    consume_ok lq5 ∧
    (tpipe_hasData lq6).2 = -2147483648 ∧
    (tpipe_hasData lq6).2 < 0 := by decide
